import Mathlib

/- Verification of the approval-flow-catcher event adapter.

 The development shallowly embeds the adapter's source files:
   src/event/src/middleware/error.middleware.ts
   src/event/src/controllers/event.controller.ts
   src/event/src/utils/approval.utils.ts
   src/event/src/utils/email.utils.ts
   src/event/src/connector/pre-undeploy.ts

 Remote commerce-platform state is modelled by an explicit environment
 (`Env`), remote calls by a result-plus-trace type (`Res`): each embedded
 function returns its value (or its thrown `CustomError`) together with the
 ordered list of outbound API calls it issued.  JavaScript `undefined` is
 modelled by `Option`; JS string falsiness ("" is falsy) is modelled
 explicitly where the source relies on it.  The base64 decoder and
 `JSON.parse` are external collaborators and appear as function parameters
 of the decoding stage.  `Promise.all` is modelled deterministically: every
 send is issued (traced) and the first rejection in creation order decides
 the aggregate outcome. -/

set_option maxHeartbeats 1000000

namespace AFC

/- ------------------------------------------------------------------ -/
/- Basic data: errors, HTTP responses (error.middleware.ts)           -/
/- ------------------------------------------------------------------ -/

/-- Models `CustomError` from src/event/src/errors/custom.error.ts: a thrown
error carrying an HTTP status code and a message. -/
structure CustomError where
  statusCode : Nat
  message : String
  deriving DecidableEq, Repr

/-- An HTTP response as produced by the error middleware: a status plus a
JSON object body, modelled as a list of string key-value pairs. -/
structure HttpResponse where
  status : Nat
  body : List (String × String)
  deriving DecidableEq, Repr

/-- Embeds `errorMiddleware` (src/event/src/middleware/error.middleware.ts):
`res.status(200).send(isDevelopment ? { messge: error.message } : { message:
'Internal server error' })`.  The development-mode body key is `messge`,
faithfully reproducing the source's spelling. -/
def errorMiddleware (isDevelopment : Bool) (error : CustomError) : HttpResponse :=
  ⟨200,
   if isDevelopment then [("messge", error.message)]
   else [("message", "Internal server error")]⟩

/- ------------------------------------------------------------------ -/
/- Envelope data model (fields consumed by event.controller.ts)       -/
/- ------------------------------------------------------------------ -/

/-- A sub-object of the decoded envelope holding an optional `id`
(`resource`, `associate`, `order`). -/
structure Ref where
  id : Option String
  deriving DecidableEq, Repr

/-- One entry of `currentTierPendingApprovers`: the handlers only read
`approver.associateRole.key`. -/
structure RuleApprover where
  associateRoleKey : String
  deriving DecidableEq, Repr

/-- The approval-flow payload fields the handlers consume:
`id`, `businessUnit.key` (read without a guard), `order?.id`, and
`currentTierPendingApprovers` (read with a `|| []` default). -/
structure ApprovalFlow where
  id : String
  businessUnitKey : String
  orderId : Option String
  currentTierPendingApprovers : Option (List RuleApprover)
  deriving DecidableEq, Repr

/-- The decoded JSON envelope, restricted to the fields the router reads.
Absent fields are `none`. -/
structure Envelope where
  type : Option String
  resource : Option Ref
  approvalFlow : Option ApprovalFlow
  associate : Option Ref
  order : Option Ref
  deriving DecidableEq, Repr

/- ------------------------------------------------------------------ -/
/- Decoder (event.controller.ts: validatePubSubMessage / decode...)   -/
/- ------------------------------------------------------------------ -/

/-- The inbound Pub/Sub message: `data` is an optional base64 payload.
`some ""` models a present but empty (JS-falsy) `data` field. -/
structure PubSubMessage where
  data : Option String
  deriving DecidableEq, Repr

/-- The request body shape expected by the controller. -/
structure RequestBody where
  message : Option PubSubMessage
  deriving DecidableEq, Repr

/-- JavaScript `String.prototype.trim`: strip leading and trailing
whitespace (whitespace set modelled by `Char.isWhitespace`). -/
def jsTrim (s : String) : String :=
  ⟨((s.data.dropWhile Char.isWhitespace).reverse.dropWhile Char.isWhitespace).reverse⟩

/-- Embeds `validatePubSubMessage`: rejects an absent body and an absent
`message` field with status-400 `CustomError`s. -/
def validatePubSubMessage (body : Option RequestBody) : Except CustomError PubSubMessage :=
  match body with
  | none => .error ⟨400, "Bad request: No Pub/Sub message was received"⟩
  | some b =>
    match b.message with
    | none => .error ⟨400, "Bad request: Wrong No Pub/Sub message format"⟩
    | some m => .ok m

/-- Embeds `decodePubSubMessage`.  `b64decode` stands for
`Buffer.from(-, 'base64').toString()` and `parseJson` for `JSON.parse`
(returning `none` where `JSON.parse` would throw); both are opaque external
collaborators.  The source computes
`pubSubMessage.data ? Buffer.from(...).toString().trim() : undefined`
(a present-but-empty `data` is falsy), rejects a missing or empty decoded
string, and rejects unparsable payloads. -/
def decodePubSubMessage (b64decode : String → String)
    (parseJson : String → Option Envelope) (pubSubMessage : PubSubMessage) :
    Except CustomError Envelope :=
  let decodedData : Option String :=
    match pubSubMessage.data with
    | none => none
    | some d => if d = "" then none else some (jsTrim (b64decode d))
  match decodedData with
  | none => .error ⟨400, "Bad request: No message data found"⟩
  | some s =>
    if s = "" then .error ⟨400, "Bad request: No message data found"⟩
    else
      match parseJson s with
      | some jsonData => .ok jsonData
      | none => .error ⟨400, "Bad request: Invalid JSON in message data"⟩

/- ------------------------------------------------------------------ -/
/- Router (event.controller.ts: routeApprovalFlowMessage)             -/
/- ------------------------------------------------------------------ -/

/-- The handler invocation the router dispatches to (the `await handle...`
calls).  For the Approved case the associate and order ids are whatever
`jsonData.associate.id` / `jsonData.order.id` evaluate to, possibly
`undefined` (`none`). -/
inductive HandlerCall where
  | created (approvalFlow : ApprovalFlow)
  | approved (approvalFlowId : String) (associateId : Option String) (orderId : Option String)
  | rejectedOrCompleted (approvalFlowId : String) (isRejected : Bool) (orderId : Option String)
  deriving DecidableEq, Repr

/-- How routing can end without a handler call: a thrown `CustomError`, or
an unhandled JavaScript `TypeError` from dereferencing `undefined`
(`jsonData.associate.id` / `jsonData.order.id` with the object absent). -/
inductive RouteError where
  | err (e : CustomError)
  | fault
  deriving DecidableEq, Repr

/-- The JS-truthy value of `x?.id`: `none` when the object or its `id` is
absent or the id is the empty string. -/
def truthyId (r : Option Ref) : Option String :=
  match r with
  | none => none
  | some x =>
    match x.id with
    | none => none
    | some s => if s = "" then none else some s

/-- JS template interpolation of the `type` discriminant: `undefined` prints
as `"undefined"`. -/
def typeShown (t : Option String) : String := t.getD "undefined"

/-- Embeds the `switch (type)` of `routeApprovalFlowMessage`.  Returns the
handler call that is awaited, or how the routing failed.  The Approved
branch guards only `jsonData.resource?.id` and then dereferences
`jsonData.associate.id` and `jsonData.order.id` without a guard, so an
absent `associate` or `order` object produces `RouteError.fault`. -/
def routeApprovalFlowMessage (jsonData : Envelope) : Except RouteError HandlerCall :=
  if jsonData.type = some "ResourceCreated" then
    .error (.err ⟨202,
      "Incoming message is about subscription resource creation. Skip handling the message."⟩)
  else if jsonData.type = some "ApprovalFlowCreated" then
    match jsonData.approvalFlow with
    | none => .error (.err ⟨400, "ApprovalFlow data missing in message"⟩)
    | some flow => .ok (.created flow)
  else if jsonData.type = some "ApprovalFlowApproved" then
    match truthyId jsonData.resource with
    | none => .error (.err ⟨400, "Approval flow ID missing in message"⟩)
    | some flowId =>
      match jsonData.associate with
      | none => .error .fault
      | some a =>
        match jsonData.order with
        | none => .error .fault
        | some o => .ok (.approved flowId a.id o.id)
  else if jsonData.type = some "ApprovalFlowRejected" then
    match truthyId jsonData.resource with
    | none => .error (.err ⟨400, "Approval flow ID missing in message"⟩)
    | some flowId => .ok (.rejectedOrCompleted flowId true (jsonData.order.bind Ref.id))
  else if jsonData.type = some "ApprovalFlowCompleted" then
    match truthyId jsonData.resource with
    | none => .error (.err ⟨400, "Approval flow ID missing in message"⟩)
    | some flowId => .ok (.rejectedOrCompleted flowId false (jsonData.order.bind Ref.id))
  else
    .error (.err ⟨400, "Unsupported notification type: " ++ typeShown jsonData.type⟩)

/-- The five `type` values the switch names explicitly. -/
def knownNotificationTypes : List String :=
  ["ResourceCreated", "ApprovalFlowCreated", "ApprovalFlowApproved",
   "ApprovalFlowRejected", "ApprovalFlowCompleted"]

/-- The validate-decode-route pipeline of the `post` controller: the router
runs only when validation and decoding succeed. -/
def processPubSub (b64decode : String → String)
    (parseJson : String → Option Envelope) (body : Option RequestBody) :
    Except RouteError HandlerCall :=
  match validatePubSubMessage body with
  | .error e => .error (.err e)
  | .ok pubSubMessage =>
    match decodePubSubMessage b64decode parseJson pubSubMessage with
    | .error e => .error (.err e)
    | .ok jsonData => routeApprovalFlowMessage jsonData

/- ------------------------------------------------------------------ -/
/- Remote environment and traced results                              -/
/- ------------------------------------------------------------------ -/

/-- An associate role resource (only its key is consumed). -/
structure AssociateRole where
  key : String
  deriving DecidableEq, Repr

/-- A business-unit associate: its customer reference and the keys of its
associate-role assignments. -/
structure Associate where
  customerId : String
  roleKeys : List String
  deriving DecidableEq, Repr

/-- A business unit resource: key and associate list. -/
structure BusinessUnit where
  key : String
  associates : List Associate
  deriving DecidableEq, Repr

/-- A customer resource.  JS-falsy (absent or empty) `email`, `firstName`
and `lastName` are modelled by the empty string. -/
structure Customer where
  id : String
  email : String
  firstName : String
  lastName : String
  deriving DecidableEq, Repr

/-- An order resource: id, optimistic-concurrency version, optional
business-unit key. -/
structure Order where
  id : String
  version : Nat
  businessUnitKey : Option String
  deriving DecidableEq, Repr

/-- A workflow state resource: id and key. -/
structure State where
  id : String
  key : String
  deriving DecidableEq, Repr

/-- The remote world the adapter calls into: the commerce-platform stores
plus, for the email provider, the set of recipient addresses whose send the
provider rejects. -/
structure Env where
  associateRoles : List AssociateRole
  businessUnits : List BusinessUnit
  customersDb : List Customer
  orders : List Order
  states : List State
  failingEmails : List String
  deriving DecidableEq, Repr

/-- The environment-sourced configuration values the handlers read. -/
structure Config where
  orderNeedApprovalStateKey : String
  orderApprovedStateKey : String
  orderRejectedStateKey : String
  sendgridFromEmail : String
  deriving DecidableEq, Repr

/-- One order update action the adapter issues (`transitionState`). -/
inductive OrderAction where
  | transitionState (stateId : String)
  deriving DecidableEq, Repr

/-- One outbound remote call, with the payload the adapter sends. -/
inductive ApiCall where
  | fetchAssociateRole (key : String)
  | fetchBusinessUnit (key : String)
  | queryCustomers (ids : List String)
  | fetchOrder (id : String)
  | queryStates (key : String)
  | updateOrder (id : String) (version : Nat) (actions : List OrderAction)
  | sendEmail (toAddr : String) (subject : String) (text : String) (html : String)
  deriving DecidableEq, Repr

/-- The outcome of running an embedded async function: the returned value or
thrown `CustomError`, together with the ordered trace of remote calls the
run issued (calls are traced even when they fail). -/
structure Res (α : Type) where
  result : Except CustomError α
  trace : List ApiCall
  deriving Repr

/-- `return` of the traced-result type: a value, no calls. -/
def Res.pure (a : α) : Res α := ⟨.ok a, []⟩

/-- Sequencing with `await` semantics: a thrown error short-circuits, but
calls already issued stay in the trace. -/
def Res.bind (x : Res α) (f : α → Res β) : Res β :=
  match x.result with
  | .error e => ⟨.error e, x.trace⟩
  | .ok a => ⟨(f a).result, x.trace ++ (f a).trace⟩

/-- A `try { ... } catch (error) { throw new CustomError(code, head + error) }`
wrapper: re-wraps any thrown error, leaves values and traces untouched. -/
def wrapErr (code : Nat) (head : String) (x : Res α) : Res α :=
  match x.result with
  | .error e => ⟨.error ⟨code, head ++ e.message⟩, x.trace⟩
  | .ok a => ⟨.ok a, x.trace⟩

/- ------------------------------------------------------------------ -/
/- Platform API primitives (SDK calls made by approval.utils.ts)      -/
/- ------------------------------------------------------------------ -/

/-- `associateRoles().withKey(key).get()`: returns the role or throws. -/
def apiFetchAssociateRole (env : Env) (key : String) : Res AssociateRole :=
  ⟨match env.associateRoles.find? (fun r => r.key == key) with
    | some r => .ok r
    | none => .error ⟨404, "associate role " ++ key ++ " not found"⟩,
   [.fetchAssociateRole key]⟩

/-- `businessUnits().withKey(key).get()`: returns the unit or throws. -/
def apiFetchBusinessUnit (env : Env) (key : String) : Res BusinessUnit :=
  ⟨match env.businessUnits.find? (fun b => b.key == key) with
    | some b => .ok b
    | none => .error ⟨404, "business unit " ++ key ++ " not found"⟩,
   [.fetchBusinessUnit key]⟩

/-- `customers().get({ where: id in (...) })`: returns each stored customer
whose id occurs in the requested id list (a query never throws). -/
def apiQueryCustomers (env : Env) (ids : List String) : Res (List Customer) :=
  ⟨.ok (env.customersDb.filter (fun c => ids.contains c.id)), [.queryCustomers ids]⟩

/-- `orders().withId(id).get()`: returns the order or throws. -/
def apiGetOrder (env : Env) (orderId : String) : Res Order :=
  ⟨match env.orders.find? (fun o => o.id == orderId) with
    | some o => .ok o
    | none => .error ⟨404, "order " ++ orderId ++ " not found"⟩,
   [.fetchOrder orderId]⟩

/-- `states().get({ where: key=... })`: the states whose key matches
exactly. -/
def apiQueryStates (env : Env) (stateKey : String) : Res (List State) :=
  ⟨.ok (env.states.filter (fun st => st.key == stateKey)), [.queryStates stateKey]⟩

/-- `orders().withId(id).post({ version, actions })`: the platform accepts
the update only when the supplied version matches the stored one. -/
def apiUpdateOrder (env : Env) (orderId : String) (version : Nat)
    (actions : List OrderAction) : Res Order :=
  ⟨match env.orders.find? (fun o => o.id == orderId) with
    | some o =>
      if o.version = version then .ok o
      else .error ⟨409, "version mismatch on order " ++ orderId⟩
    | none => .error ⟨404, "order " ++ orderId ++ " not found"⟩,
   [.updateOrder orderId version actions]⟩

/-- The provider message used when the email provider rejects a send. -/
def providerRejectedMsg (toAddr : String) : String := "provider rejected send to " ++ toAddr

/-- `sgMail.send(msg)` at the provider: rejects exactly the addresses listed
in `env.failingEmails`. -/
def apiSendEmail (env : Env) (toAddr : String) (subject : String) (text : String)
    (html : String) : Res Unit :=
  ⟨if env.failingEmails.contains toAddr then .error ⟨502, providerRejectedMsg toAddr⟩
    else .ok (),
   [.sendEmail toAddr subject text html]⟩

/- ------------------------------------------------------------------ -/
/- email.utils.ts                                                     -/
/- ------------------------------------------------------------------ -/

/-- A recipient entry of `sendBulkEmails`. -/
structure Recipient where
  email : String
  name : String
  deriving DecidableEq, Repr

/-- Embeds `sendEmail`: builds the message (`html` defaults to the text with
newlines replaced by `<br>`), sends it, and wraps any failure into a 500
`CustomError`. -/
def sendEmail (env : Env) (toAddr : String) (subject : String) (text : String)
    (html : Option String) : Res Unit :=
  wrapErr 500 "Failed to send email: "
    (apiSendEmail env toAddr subject text (html.getD (text.replace "\n" "<br>")))

/-- The aggregate result of `Promise.all`: the first rejection in creation
order, else success.  (Real `Promise.all` settles on the first rejection in
time; creation order stands in for time in this deterministic model.) -/
def promiseAllResult : List (Res Unit) → Except CustomError Unit
  | [] => .ok ()
  | r :: rest =>
    match r.result with
    | .error e => .error e
    | .ok _ => promiseAllResult rest

/-- `Promise.all` over already-created promises: every underlying call has
been issued (all traces appear), and the aggregate result is
`promiseAllResult`. -/
def promiseAll (rs : List (Res Unit)) : Res Unit :=
  ⟨promiseAllResult rs, rs.flatMap Res.trace⟩

/-- Embeds `sendBulkEmails`: creates one `sendEmail` promise per recipient,
joins them with `Promise.all`, and wraps any failure into a 500
`CustomError`. -/
def sendBulkEmails (env : Env) (recipients : List Recipient) (subject : String)
    (getTextContent : String → String) (getHtmlContent : Option (String → String)) :
    Res Unit :=
  wrapErr 500 "Failed to send bulk emails: "
    (promiseAll (recipients.map (fun recipient =>
      sendEmail env recipient.email subject (getTextContent recipient.name)
        (match getHtmlContent with
         | some f => some (f recipient.name)
         | none => none))))

/-- The email template of approval-notification.template.ts. -/
def getApprovalNotificationTemplate (approverName : String) (approvalFlowId : String) :
    String :=
  "Hi " ++ approverName ++ ",\n\nAn approval flow with ID " ++ approvalFlowId ++
    " is created.\n\nCheck it out in the admin portal.\n\nBest regards,\nYour Commerce Team"

/-- The email subject of approval-notification.template.ts. -/
def getApprovalNotificationSubject (approvalFlowId : String) : String :=
  "New Approval Flow " ++ approvalFlowId ++ " Requires Your Attention"

/- ------------------------------------------------------------------ -/
/- approval.utils.ts                                                  -/
/- ------------------------------------------------------------------ -/

/-- `fetchOrder`: the SDK get wrapped into a 400 `CustomError` on failure. -/
def fetchOrder (env : Env) (orderId : String) : Res Order :=
  wrapErr 400 "Failed to fetch order: " (apiGetOrder env orderId)

/-- Embeds `transitionOrderState`: re-fetch the order for a fresh version,
resolve the target state by exact key (first result wins, zero matches
throw), then issue one update carrying the observed version and a single
`transitionState` action; any failure is re-wrapped into a 400
`CustomError`. -/
def transitionOrderState (env : Env) (orderId : String) (stateKey : String) : Res Order :=
  wrapErr 400 "Failed to transition order state: "
    (Res.bind (fetchOrder env orderId) (fun order =>
      Res.bind (apiQueryStates env stateKey) (fun results =>
        match results with
        | [] => ⟨.error ⟨400, "State with key \"" ++ stateKey ++ "\" not found"⟩, []⟩
        | targetState :: _ =>
          apiUpdateOrder env orderId order.version [.transitionState targetState.id])))

/-- The per-role-key loop body of
`fetchCustomersByAssociateRoleKeysInBusinessUnit`: fetch the associate role,
fetch the business unit, filter its associates by the role key, and collect
their customer references, in iteration order. -/
def collectRefsLoop (env : Env) (businessUnitKey : String) :
    List String → Res (List String)
  | [] => Res.pure []
  | roleKey :: rest =>
    Res.bind (apiFetchAssociateRole env roleKey) (fun _ =>
      Res.bind (apiFetchBusinessUnit env businessUnitKey) (fun businessUnit =>
        Res.bind (collectRefsLoop env businessUnitKey rest) (fun more =>
          Res.pure
            (((businessUnit.associates.filter (fun a => a.roleKeys.contains roleKey)).map
                Associate.customerId) ++ more))))

/-- Embeds `fetchCustomersByAssociateRoleKeysInBusinessUnit`: run the
per-role loop, return `[]` without a query when no reference was collected,
else batch-fetch the referenced customers; failures wrap into a 400
`CustomError`. -/
def fetchCustomersByAssociateRoleKeysInBusinessUnit (env : Env)
    (associateRoleKeys : List String) (businessUnitKey : String) : Res (List Customer) :=
  wrapErr 400 "Failed to fetch customers: "
    (Res.bind (collectRefsLoop env businessUnitKey associateRoleKeys) (fun customerIds =>
      if customerIds.isEmpty then Res.pure []
      else apiQueryCustomers env customerIds))

/-- The recipient display name: `customer.firstName || customer.lastName ||
customer.email`. -/
def recipientName (c : Customer) : String :=
  if c.firstName ≠ "" then c.firstName
  else if c.lastName ≠ "" then c.lastName
  else c.email

/-- The recipients `sendApprovalNotifications` builds: customers with a
JS-truthy (non-empty) email, mapped to (email, display name). -/
def recipientsOf (customers : List Customer) : List Recipient :=
  (customers.filter (fun c => c.email != "")).map (fun c => ⟨c.email, recipientName c⟩)

/-- Embeds `sendApprovalNotifications`: filter customers to those with an
email, return silently when none remain, else bulk-send the templated
notification; failures wrap into a 500 `CustomError`. -/
def sendApprovalNotifications (env : Env) (customers : List Customer)
    (approvalFlowId : String) : Res Unit :=
  wrapErr 500 "Failed to send approval notifications: "
    (match recipientsOf customers with
     | [] => Res.pure ()
     | r :: rest =>
       sendBulkEmails env (r :: rest) (getApprovalNotificationSubject approvalFlowId)
         (fun name => getApprovalNotificationTemplate name approvalFlowId) none)

/-- `approvalFlow.currentTierPendingApprovers || []`. -/
def flowPending (approvalFlow : ApprovalFlow) : List RuleApprover :=
  approvalFlow.currentTierPendingApprovers.getD []

/-- The role keys the created-handler extracts: one per pending approver, in
order, with no deduplication. -/
def pendingKeys (approvalFlow : ApprovalFlow) : List String :=
  (flowPending approvalFlow).map RuleApprover.associateRoleKey

/-- Embeds `handleApprovalFlowCreated`: stop when the pending-approvers list
is empty; else resolve the approvers' customers, send notifications, and,
when the flow references an order, transition it to the configured
needs-approval state.  The surrounding try/catch only logs and re-throws. -/
def handleApprovalFlowCreated (env : Env) (config : Config)
    (approvalFlow : ApprovalFlow) : Res Unit :=
  let currentTierPendingApprovers := flowPending approvalFlow
  if currentTierPendingApprovers.length = 0 then Res.pure ()
  else
    Res.bind
      (fetchCustomersByAssociateRoleKeysInBusinessUnit env (pendingKeys approvalFlow)
        approvalFlow.businessUnitKey) (fun customers =>
      Res.bind (sendApprovalNotifications env customers approvalFlow.id) (fun _ =>
        match approvalFlow.orderId with
        | some orderId =>
          Res.bind (transitionOrderState env orderId config.orderNeedApprovalStateKey)
            (fun _ => Res.pure ())
        | none => Res.pure ()))

/- ------------------------------------------------------------------ -/
/- pre-undeploy.ts (subscription teardown)                            -/
/- ------------------------------------------------------------------ -/

/-- A platform subscription: its (unique) key and concurrency version. -/
structure Subscription where
  key : String
  version : Nat
  deriving DecidableEq, Repr

/-- The subscription-manager calls. -/
inductive SubCall where
  | querySubscriptions (whereKey : String)
  | deleteSubscription (key : String) (version : Nat)
  deriving DecidableEq, Repr

/-- `APPROVAL_FLOW_NOTIFICATION_SUBSCRIPTION_KEY`. -/
def approvalFlowSubscriptionKey : String := "approval-flow-notification"

/-- Embeds `deleteApprovalFlowNotificationSubscription`: query by the
well-known key; when a result exists, delete by key carrying the first
result's version.  Returns the issued calls and the post-state of the
subscription store (platform keys are unique, so the delete removes the
subscription with the well-known key). -/
def deleteApprovalFlowNotificationSubscription (subs : List Subscription) :
    List SubCall × List Subscription :=
  match subs.filter (fun s => s.key == approvalFlowSubscriptionKey) with
  | [] => ([.querySubscriptions approvalFlowSubscriptionKey], subs)
  | subscription :: _ =>
    ([.querySubscriptions approvalFlowSubscriptionKey,
      .deleteSubscription approvalFlowSubscriptionKey subscription.version],
     subs.filter (fun s => s.key != approvalFlowSubscriptionKey))

/-- Recognizes a delete call. -/
def isDeleteCall : SubCall → Bool
  | .deleteSubscription _ _ => true
  | _ => false

/- ------------------------------------------------------------------ -/
/- Trace observations (pure restatements of the traced pipelines,     -/
/- used to phrase the theorems; each mirrors the source loop above)   -/
/- ------------------------------------------------------------------ -/

/-- Recognizes an order-update call. -/
def isUpdateCall : ApiCall → Bool
  | .updateOrder _ _ _ => true
  | _ => false

/-- Recognizes an email-send call. -/
def isEmailCall : ApiCall → Bool
  | .sendEmail _ _ _ _ => true
  | _ => false

/-- Recognizes the associate-role fetch for one specific key. -/
def isRoleFetchFor (key : String) : ApiCall → Bool
  | .fetchAssociateRole k => k == key
  | _ => false

/-- The customer references `collectRefsLoop` accumulates: one block per
role-key occurrence, in order, duplicates preserved. -/
def collectedRefs (businessUnit : BusinessUnit) (keys : List String) : List String :=
  keys.flatMap (fun k =>
    (businessUnit.associates.filter (fun a => a.roleKeys.contains k)).map
      Associate.customerId)

/-- The calls `collectRefsLoop` issues when every lookup succeeds: an
associate-role fetch and a business-unit fetch per key occurrence. -/
def loopTrace (businessUnitKey : String) (keys : List String) : List ApiCall :=
  keys.flatMap (fun k => [.fetchAssociateRole k, .fetchBusinessUnit businessUnitKey])

/-- The customers a successful
`fetchCustomersByAssociateRoleKeysInBusinessUnit` run returns. -/
def fetchedCustomers (env : Env) (businessUnit : BusinessUnit) (keys : List String) :
    List Customer :=
  let refs := collectedRefs businessUnit keys
  if refs.isEmpty then [] else env.customersDb.filter (fun c => refs.contains c.id)

/-- The calls a successful `fetchCustomersByAssociateRoleKeysInBusinessUnit`
run issues. -/
def fetchTrace (businessUnitKey : String) (businessUnit : BusinessUnit)
    (keys : List String) : List ApiCall :=
  let refs := collectedRefs businessUnit keys
  loopTrace businessUnitKey keys ++ (if refs.isEmpty then [] else [.queryCustomers refs])

/-- The send call `sendBulkEmails` issues for one recipient (html resolved
exactly as `sendEmail` resolves it). -/
def emailCallFor (subject : String) (getTextContent : String → String)
    (getHtmlContent : Option (String → String)) (r : Recipient) : ApiCall :=
  .sendEmail r.email subject (getTextContent r.name)
    ((match getHtmlContent with
      | some f => some (f r.name)
      | none => none).getD ((getTextContent r.name).replace "\n" "<br>"))

/-- The send calls `sendApprovalNotifications` issues: one per customer with
a non-empty email. -/
def notifyTrace (customers : List Customer) (approvalFlowId : String) : List ApiCall :=
  (recipientsOf customers).map
    (emailCallFor (getApprovalNotificationSubject approvalFlowId)
      (fun name => getApprovalNotificationTemplate name approvalFlowId) none)

/- ------------------------------------------------------------------ -/
/- Foundation lemmas on the traced-result type                        -/
/- ------------------------------------------------------------------ -/

theorem Res.bind_mk_ok (a : α) (t : List ApiCall) (f : α → Res β) :
    Res.bind ⟨.ok a, t⟩ f = ⟨(f a).result, t ++ (f a).trace⟩ := rfl

theorem Res.bind_mk_err (e : CustomError) (t : List ApiCall) (f : α → Res β) :
    Res.bind ⟨.error e, t⟩ f = ⟨.error e, t⟩ := rfl

theorem wrapErr_mk_ok (code : Nat) (head : String) (a : α) (t : List ApiCall) :
    wrapErr code head ⟨.ok a, t⟩ = ⟨.ok a, t⟩ := rfl

theorem wrapErr_mk_err (α : Type) (code : Nat) (head : String) (e : CustomError)
    (t : List ApiCall) :
    wrapErr code head (⟨.error e, t⟩ : Res α) = ⟨.error ⟨code, head ++ e.message⟩, t⟩ := rfl

theorem wrapErr_trace (code : Nat) (head : String) (x : Res α) :
    (wrapErr code head x).trace = x.trace := by
  rcases x with ⟨r, t⟩
  cases r <;> rfl

theorem Res.bind_trace_of_ok (x : Res α) (f : α → Res β) (a : α)
    (h : x.result = .ok a) : (Res.bind x f).trace = x.trace ++ (f a).trace := by
  rcases x with ⟨r, t⟩
  cases r with
  | error e => simp at h
  | ok b =>
    simp only [Except.ok.injEq] at h
    subst h
    rfl

theorem Res.bind_trace_of_err (x : Res α) (f : α → Res β) (e : CustomError)
    (h : x.result = .error e) : (Res.bind x f).trace = x.trace := by
  rcases x with ⟨r, t⟩
  cases r with
  | error e2 => rfl
  | ok b => simp at h

/- ------------------------------------------------------------------ -/
/- Claim theorems: error middleware (C1)                              -/
/- ------------------------------------------------------------------ -/

/-- C1: every error reaching the middleware yields HTTP status 200; in
production the body is the generic `message: Internal server error` object,
in development the body echoes the raw error message (the source spells the
development key `messge`); the incoming error's status code never influences
the response, as the third conjunct shows by replacing it wholesale. -/
theorem c1_errorMiddleware_masksStatus (isDevelopment : Bool) (error : CustomError) :
    (errorMiddleware isDevelopment error).status = 200 ∧
    (errorMiddleware isDevelopment error).body =
      (if isDevelopment then [("messge", error.message)]
       else [("message", "Internal server error")]) ∧
    errorMiddleware isDevelopment ⟨999, error.message⟩ =
      errorMiddleware isDevelopment error :=
  ⟨rfl, rfl, rfl⟩

/- ------------------------------------------------------------------ -/
/- Claim theorems: decoder (C4, C10)                                  -/
/- ------------------------------------------------------------------ -/

/-- C4: whenever the body is absent, the `message` field is absent, the
message data is absent or empty after decoding, or the decoded payload does
not parse as JSON, the pipeline stops with a status-400 `CustomError`
carrying one of the decoder's four reason strings; the router is never
consulted (the result is an error, not a handler call). -/
theorem c4_decoder_rejects (b64decode : String → String)
    (parseJson : String → Option Envelope) (body : Option RequestBody)
    (hbad : body = none ∨
      (∃ b, body = some b ∧ b.message = none) ∨
      (∃ b m, body = some b ∧ b.message = some m ∧
        (m.data = none ∨ m.data = some "" ∨
          (∃ d, m.data = some d ∧ d ≠ "" ∧ jsTrim (b64decode d) = ""))) ∨
      (∃ b m d, body = some b ∧ b.message = some m ∧ m.data = some d ∧ d ≠ "" ∧
        jsTrim (b64decode d) ≠ "" ∧ parseJson (jsTrim (b64decode d)) = none)) :
    ∃ msg, processPubSub b64decode parseJson body = .error (.err ⟨400, msg⟩) ∧
      msg ∈ ["Bad request: No Pub/Sub message was received",
             "Bad request: Wrong No Pub/Sub message format",
             "Bad request: No message data found",
             "Bad request: Invalid JSON in message data"] := by
  rcases hbad with h | ⟨b, hb, hm⟩ | ⟨b, m, hb, hm, hd⟩ | ⟨b, m, d, hb, hm, hd, hne, htr, hp⟩
  · subst h
    exact ⟨_, rfl, by simp⟩
  · subst hb
    refine ⟨"Bad request: Wrong No Pub/Sub message format", ?_, by simp⟩
    simp [processPubSub, validatePubSubMessage, hm]
  · subst hb
    refine ⟨"Bad request: No message data found", ?_, by simp⟩
    rcases hd with h | h | ⟨d, h, hne, htr⟩
    · simp [processPubSub, validatePubSubMessage, hm, decodePubSubMessage, h]
    · simp [processPubSub, validatePubSubMessage, hm, decodePubSubMessage, h]
    · simp [processPubSub, validatePubSubMessage, hm, decodePubSubMessage, h, hne, htr]
  · subst hb
    refine ⟨"Bad request: Invalid JSON in message data", ?_, by simp⟩
    simp [processPubSub, validatePubSubMessage, hm, decodePubSubMessage, hd, hne, htr, hp]

/-- Witness for C4 at the concrete absent-body request. -/
theorem c4_decoder_rejects_witness :
    ∃ msg, processPubSub id (fun _ => none) none = .error (.err ⟨400, msg⟩) ∧
      msg ∈ ["Bad request: No Pub/Sub message was received",
             "Bad request: Wrong No Pub/Sub message format",
             "Bad request: No message data found",
             "Bad request: Invalid JSON in message data"] :=
  c4_decoder_rejects id (fun _ => none) none (Or.inl rfl)

theorem jsTrim_of_all_whitespace (s : String)
    (h : ∀ c ∈ s.data, c.isWhitespace = true) : jsTrim s = "" := by
  have h1 : s.data.dropWhile Char.isWhitespace = [] :=
    List.dropWhile_eq_nil_iff.mpr h
  simp [jsTrim, h1]

/-- C10: when present, non-empty `data` decodes to a whitespace-only string,
the decoder trims it, sees it empty, and fails with the same
`No message data found` error it produces for absent data — for every JSON
parser, i.e. parsing is never attempted. -/
theorem c10_whitespaceData_sameAsAbsent (b64decode : String → String)
    (parseJson : String → Option Envelope) (d : String) (hne : d ≠ "")
    (hws : ∀ c ∈ (b64decode d).data, c.isWhitespace = true) :
    decodePubSubMessage b64decode parseJson ⟨some d⟩ =
      .error ⟨400, "Bad request: No message data found"⟩ ∧
    decodePubSubMessage b64decode parseJson ⟨none⟩ =
      .error ⟨400, "Bad request: No message data found"⟩ := by
  refine ⟨?_, rfl⟩
  simp [decodePubSubMessage, hne, jsTrim_of_all_whitespace _ hws]

/-- Witness for C10: `data = "eA=="` decoding to `" \n "`. -/
theorem c10_whitespaceData_sameAsAbsent_witness :
    decodePubSubMessage (fun _ => " \n ") (fun _ => some ⟨none, none, none, none, none⟩)
        ⟨some "eA=="⟩ = .error ⟨400, "Bad request: No message data found"⟩ ∧
    decodePubSubMessage (fun _ => " \n ") (fun _ => some ⟨none, none, none, none, none⟩)
        ⟨none⟩ = .error ⟨400, "Bad request: No message data found"⟩ :=
  c10_whitespaceData_sameAsAbsent (fun _ => " \n ")
    (fun _ => some ⟨none, none, none, none, none⟩) "eA==" (by decide) (by decide)

/- ------------------------------------------------------------------ -/
/- Claim theorems: router (C5, C6)                                    -/
/- ------------------------------------------------------------------ -/

/-- C5: evaluation at the failing input.  An `ApprovalFlowApproved` envelope
with `resource.id` present but the `associate` object absent makes the
router dereference `jsonData.associate.id` on `undefined`: an unhandled
fault, not the BadRequest the claim (and the spec's stated intent) calls
for. -/
theorem c5_missingAssociate_faults :
    routeApprovalFlowMessage
        ⟨some "ApprovalFlowApproved", some ⟨some "af1"⟩, none, none, some ⟨some "o1"⟩⟩ =
      .error .fault := rfl

/-- C6 counterexample: the unsupported type `SomethingElse` is not treated
as a non-error or soft-skip — the router signals a status-400 BadRequest
failure naming the type. -/
theorem c6_unknownType_counterexample :
    routeApprovalFlowMessage ⟨some "SomethingElse", none, none, none, none⟩ =
      .error (.err ⟨400, "Unsupported notification type: SomethingElse"⟩) := rfl

/-- C6 (amended): `ResourceCreated` is signalled as a status-202 soft-skip,
while an unknown or empty or absent `type` yields a status-400 BadRequest
naming the unsupported type; in every one of these cases no approval-flow
handler is invoked (the result is an error, never a handler call). -/
theorem c6_router_skip_and_unknown (e : Envelope) :
    (e.type = some "ResourceCreated" →
      routeApprovalFlowMessage e = .error (.err ⟨202,
        "Incoming message is about subscription resource creation. Skip handling the message."⟩)) ∧
    (∀ t, e.type = some t → t ∉ knownNotificationTypes →
      routeApprovalFlowMessage e =
        .error (.err ⟨400, "Unsupported notification type: " ++ t⟩)) ∧
    (e.type = none →
      routeApprovalFlowMessage e =
        .error (.err ⟨400, "Unsupported notification type: undefined"⟩)) := by
  refine ⟨fun h => ?_, fun t ht hmem => ?_, fun h => ?_⟩
  · simp [routeApprovalFlowMessage, h]
  · simp only [knownNotificationTypes, List.mem_cons, List.mem_singleton] at hmem
    push_neg at hmem
    obtain ⟨h1, h2, h3, h4, h5⟩ := hmem
    simp [routeApprovalFlowMessage, ht, typeShown, h1, h2, h3, h4, h5]
  · simp [routeApprovalFlowMessage, h, typeShown]

/-- Witness for C6 (amended) at three concrete envelopes. -/
theorem c6_router_skip_and_unknown_witness :
    routeApprovalFlowMessage ⟨some "ResourceCreated", none, none, none, none⟩ =
      .error (.err ⟨202,
        "Incoming message is about subscription resource creation. Skip handling the message."⟩) ∧
    routeApprovalFlowMessage ⟨some "SomethingOther", none, none, none, none⟩ =
      .error (.err ⟨400, "Unsupported notification type: SomethingOther"⟩) ∧
    routeApprovalFlowMessage ⟨none, none, none, none, none⟩ =
      .error (.err ⟨400, "Unsupported notification type: undefined"⟩) :=
  ⟨(c6_router_skip_and_unknown ⟨some "ResourceCreated", none, none, none, none⟩).1 rfl,
   (c6_router_skip_and_unknown ⟨some "SomethingOther", none, none, none, none⟩).2.1
     "SomethingOther" rfl (by decide),
   (c6_router_skip_and_unknown ⟨none, none, none, none, none⟩).2.2 rfl⟩

/- ------------------------------------------------------------------ -/
/- Email dispatch lemmas (C8)                                         -/
/- ------------------------------------------------------------------ -/

theorem sendEmail_trace (env : Env) (toAddr subject text : String) (html : Option String) :
    (sendEmail env toAddr subject text html).trace =
      [.sendEmail toAddr subject text (html.getD (text.replace "\n" "<br>"))] := by
  simp [sendEmail, wrapErr_trace, apiSendEmail]

theorem sendEmail_ok (env : Env) (toAddr subject text : String) (html : Option String)
    (h : env.failingEmails.contains toAddr = false) :
    sendEmail env toAddr subject text html =
      ⟨.ok (), [.sendEmail toAddr subject text (html.getD (text.replace "\n" "<br>"))]⟩ := by
  have h2 : toAddr ∉ env.failingEmails := by simpa using h
  simp [sendEmail, apiSendEmail, h2, wrapErr]

theorem sendEmail_fail (env : Env) (toAddr subject text : String) (html : Option String)
    (h : env.failingEmails.contains toAddr = true) :
    sendEmail env toAddr subject text html =
      ⟨.error ⟨500, "Failed to send email: " ++ providerRejectedMsg toAddr⟩,
       [.sendEmail toAddr subject text (html.getD (text.replace "\n" "<br>"))]⟩ := by
  have h2 : toAddr ∈ env.failingEmails := by simpa using h
  simp [sendEmail, apiSendEmail, h2, wrapErr]

theorem flatMap_traces_of_singleton (f : Recipient → Res Unit) (g : Recipient → ApiCall)
    (hfg : ∀ r, (f r).trace = [g r]) :
    ∀ l : List Recipient, ((l.map f).flatMap Res.trace) = l.map g := by
  intro l
  induction l with
  | nil => rfl
  | cons a l ih => simp [ih, hfg a]

theorem sendBulkEmails_trace (env : Env) (recipients : List Recipient) (subject : String)
    (getTextContent : String → String) (getHtmlContent : Option (String → String)) :
    (sendBulkEmails env recipients subject getTextContent getHtmlContent).trace =
      recipients.map (emailCallFor subject getTextContent getHtmlContent) := by
  simp only [sendBulkEmails, wrapErr_trace, promiseAll]
  exact flatMap_traces_of_singleton _ _ (fun r => sendEmail_trace env r.email subject _ _)
    recipients

theorem promiseAll_sends_ok_iff (env : Env) (subject : String)
    (getTextContent : String → String) (getHtmlContent : Option (String → String)) :
    ∀ recipients : List Recipient,
      promiseAllResult (recipients.map (fun recipient =>
          sendEmail env recipient.email subject (getTextContent recipient.name)
            (match getHtmlContent with
             | some f => some (f recipient.name)
             | none => none))) = .ok () ↔
        ∀ r ∈ recipients, env.failingEmails.contains r.email = false := by
  intro recipients
  induction recipients with
  | nil => simp [promiseAllResult]
  | cons a l ih =>
    cases h : env.failingEmails.contains a.email with
    | true =>
      rw [List.map_cons]
      rw [sendEmail_fail env a.email subject _ _ h]
      simp only [promiseAllResult]
      constructor
      · intro habs
        exact absurd habs (by simp)
      · intro hall
        have h2 := hall a (List.mem_cons_self a l)
        rw [h] at h2
        exact absurd h2 (by simp)
    | false =>
      rw [List.map_cons]
      rw [sendEmail_ok env a.email subject _ _ h]
      simp only [promiseAllResult]
      rw [ih]
      constructor
      · intro hall r hr
        rcases List.mem_cons.mp hr with h1 | h1
        · rw [h1]; exact h
        · exact hall r h1
      · intro hall r hr
        exact hall r (List.mem_cons_of_mem a hr)

theorem promiseAll_sends_firstFail (env : Env) (subject : String)
    (getTextContent : String → String) (getHtmlContent : Option (String → String)) :
    ∀ (recipients : List Recipient) (r0 : Recipient),
      recipients.find? (fun r => env.failingEmails.contains r.email) = some r0 →
      promiseAllResult (recipients.map (fun recipient =>
          sendEmail env recipient.email subject (getTextContent recipient.name)
            (match getHtmlContent with
             | some f => some (f recipient.name)
             | none => none))) =
        .error ⟨500, "Failed to send email: " ++ providerRejectedMsg r0.email⟩ := by
  intro recipients
  induction recipients with
  | nil => intro r0 h; simp at h
  | cons a l ih =>
    intro r0 hfind
    cases h : env.failingEmails.contains a.email with
    | true =>
      have hpos : (fun r => env.failingEmails.contains r.email) a = true := h
      rw [List.find?_cons_of_pos l hpos] at hfind
      injection hfind with heq
      subst heq
      rw [List.map_cons, sendEmail_fail env a.email subject _ _ h]
      simp [promiseAllResult]
    | false =>
      have hneg : ¬ (fun r => env.failingEmails.contains r.email) a = true := by
        simpa using h
      rw [List.find?_cons_of_neg l hneg] at hfind
      rw [List.map_cons, sendEmail_ok env a.email subject _ _ h]
      simp only [promiseAllResult]
      exact ih r0 hfind

/-- C8: `sendBulkEmails` issues exactly one send call per recipient (the
trace is the recipient list mapped to its send calls, hence
`len(recipients)` email calls), the aggregate result is an error exactly
when at least one recipient's send fails, and the first failing recipient
(in creation order, which models settlement time) determines the reported
error regardless of the other sends — which are all still issued.
Individual successes do not appear in the result. -/
theorem c8_sendBulkEmails_fanout (env : Env) (recipients : List Recipient)
    (subject : String) (getTextContent : String → String)
    (getHtmlContent : Option (String → String)) :
    (sendBulkEmails env recipients subject getTextContent getHtmlContent).trace =
      recipients.map (emailCallFor subject getTextContent getHtmlContent) ∧
    (sendBulkEmails env recipients subject getTextContent getHtmlContent).trace.countP
      isEmailCall = recipients.length ∧
    ((∃ e, (sendBulkEmails env recipients subject getTextContent getHtmlContent).result =
        .error e) ↔ ∃ r ∈ recipients, env.failingEmails.contains r.email = true) ∧
    (∀ r0, recipients.find? (fun r => env.failingEmails.contains r.email) = some r0 →
      (sendBulkEmails env recipients subject getTextContent getHtmlContent).result =
        .error ⟨500, "Failed to send bulk emails: " ++
          ("Failed to send email: " ++ providerRejectedMsg r0.email)⟩) := by
  refine ⟨sendBulkEmails_trace env recipients subject getTextContent getHtmlContent,
    ?_, ?_, ?_⟩
  · rw [sendBulkEmails_trace env recipients subject getTextContent getHtmlContent]
    rw [List.countP_map]
    refine List.countP_eq_length.mpr ?_
    intro r _
    rfl
  · have hok := promiseAll_sends_ok_iff env subject getTextContent getHtmlContent recipients
    simp only [sendBulkEmails, wrapErr, promiseAll]
    constructor
    · intro hex
      by_contra hno
      push_neg at hno
      have hall : ∀ r ∈ recipients, env.failingEmails.contains r.email = false := by
        intro r hr
        have := hno r hr
        simpa using this
      rw [hok.mpr hall] at hex
      rcases hex with ⟨e, he⟩
      simp at he
    · intro hex
      rcases hex with ⟨r, hr, hfail⟩
      rcases hres : promiseAllResult (recipients.map (fun recipient =>
          sendEmail env recipient.email subject (getTextContent recipient.name)
            (match getHtmlContent with
             | some f => some (f recipient.name)
             | none => none))) with e | u
      · exact ⟨_, by rw [hres]⟩
      · have hall := hok.mp (by rw [hres])
        have := hall r hr
        rw [hfail] at this
        simp at this
  · intro r0 hfind
    have hres := promiseAll_sends_firstFail env subject getTextContent getHtmlContent
      recipients r0 hfind
    simp only [sendBulkEmails, wrapErr, promiseAll]
    rw [hres]

/- ------------------------------------------------------------------ -/
/- Subscription teardown (C9)                                         -/
/- ------------------------------------------------------------------ -/

theorem filter_ne_key_then_eq_key (subs : List Subscription) :
    (subs.filter (fun s => s.key != approvalFlowSubscriptionKey)).filter
      (fun s => s.key == approvalFlowSubscriptionKey) = [] := by
  refine List.filter_eq_nil_iff.mpr ?_
  intro x hx
  rcases List.mem_filter.mp hx with ⟨_, hne⟩
  simp only [bne_iff_ne, ne_eq] at hne
  simp [hne]

/-- C9: the teardown issues zero delete calls when no subscription carries
the well-known key (and leaves the store unchanged), issues exactly one
delete call — carrying the looked-up subscription's current version — when
one does, and running the operation a second time issues zero delete calls
(idempotence). -/
theorem c9_deleteSubscription_idempotent (subs : List Subscription) :
    (subs.filter (fun s => s.key == approvalFlowSubscriptionKey) = [] →
      (deleteApprovalFlowNotificationSubscription subs).1.countP isDeleteCall = 0 ∧
      (deleteApprovalFlowNotificationSubscription subs).2 = subs) ∧
    (∀ s0 rest, subs.filter (fun s => s.key == approvalFlowSubscriptionKey) = s0 :: rest →
      (deleteApprovalFlowNotificationSubscription subs).1 =
        [.querySubscriptions approvalFlowSubscriptionKey,
         .deleteSubscription approvalFlowSubscriptionKey s0.version]) ∧
    (deleteApprovalFlowNotificationSubscription
        (deleteApprovalFlowNotificationSubscription subs).2).1.countP isDeleteCall = 0 := by
  refine ⟨fun h => ?_, fun s0 rest h => ?_, ?_⟩
  · rw [deleteApprovalFlowNotificationSubscription, h]
    exact ⟨rfl, rfl⟩
  · rw [deleteApprovalFlowNotificationSubscription, h]
  · cases hfil : subs.filter (fun s => s.key == approvalFlowSubscriptionKey) with
    | nil =>
      have h1 : (deleteApprovalFlowNotificationSubscription subs).2 = subs := by
        rw [deleteApprovalFlowNotificationSubscription, hfil]
      rw [h1, deleteApprovalFlowNotificationSubscription, hfil]
      rfl
    | cons s0 rest =>
      have h1 : (deleteApprovalFlowNotificationSubscription subs).2 =
          subs.filter (fun s => s.key != approvalFlowSubscriptionKey) := by
        rw [deleteApprovalFlowNotificationSubscription, hfil]
      rw [h1, deleteApprovalFlowNotificationSubscription, filter_ne_key_then_eq_key subs]
      rfl

/-- Witness for C9 at a store holding the subscription at version 7, and at
the empty store. -/
theorem c9_deleteSubscription_idempotent_witness :
    (deleteApprovalFlowNotificationSubscription [⟨"approval-flow-notification", 7⟩]).1 =
      [.querySubscriptions "approval-flow-notification",
       .deleteSubscription "approval-flow-notification" 7] ∧
    (deleteApprovalFlowNotificationSubscription
        (deleteApprovalFlowNotificationSubscription
          [⟨"approval-flow-notification", 7⟩]).2).1.countP isDeleteCall = 0 ∧
    (deleteApprovalFlowNotificationSubscription ([] : List Subscription)).1.countP
      isDeleteCall = 0 :=
  ⟨(c9_deleteSubscription_idempotent [⟨"approval-flow-notification", 7⟩]).2.1
      ⟨"approval-flow-notification", 7⟩ [] (by decide),
   (c9_deleteSubscription_idempotent [⟨"approval-flow-notification", 7⟩]).2.2,
   ((c9_deleteSubscription_idempotent ([] : List Subscription)).1 (by decide)).1⟩

/-- Witness for C8: two recipients of which the second fails; both calls
are issued and the batch reports the first (and only) failure. -/
theorem c8_sendBulkEmails_fanout_witness :
    (sendBulkEmails ⟨[], [], [], [], [], ["b@x"]⟩ [⟨"a@x", "A"⟩, ⟨"b@x", "B"⟩] "s"
        (fun n => n) none).trace.countP isEmailCall = 2 ∧
    (sendBulkEmails ⟨[], [], [], [], [], ["b@x"]⟩ [⟨"a@x", "A"⟩, ⟨"b@x", "B"⟩] "s"
        (fun n => n) none).result =
      .error ⟨500, "Failed to send bulk emails: " ++
        ("Failed to send email: " ++ providerRejectedMsg "b@x")⟩ :=
  ⟨(c8_sendBulkEmails_fanout ⟨[], [], [], [], [], ["b@x"]⟩ [⟨"a@x", "A"⟩, ⟨"b@x", "B"⟩]
      "s" (fun n => n) none).2.1,
   (c8_sendBulkEmails_fanout ⟨[], [], [], [], [], ["b@x"]⟩ [⟨"a@x", "A"⟩, ⟨"b@x", "B"⟩]
      "s" (fun n => n) none).2.2.2 ⟨"b@x", "B"⟩ (by decide)⟩

/- ------------------------------------------------------------------ -/
/- Order state transition lemmas (C3)                                 -/
/- ------------------------------------------------------------------ -/

theorem fetchOrder_found (env : Env) (orderId : String) (order : Order)
    (ho : env.orders.find? (fun o => o.id == orderId) = some order) :
    fetchOrder env orderId = ⟨.ok order, [.fetchOrder orderId]⟩ := by
  simp [fetchOrder, apiGetOrder, ho, wrapErr]

theorem transitionOrderState_found (env : Env) (orderId stateKey : String) (order : Order)
    (targetState : State) (rest : List State)
    (ho : env.orders.find? (fun o => o.id == orderId) = some order)
    (hs : env.states.filter (fun st => st.key == stateKey) = targetState :: rest) :
    transitionOrderState env orderId stateKey =
      ⟨.ok order,
       [.fetchOrder orderId, .queryStates stateKey,
        .updateOrder orderId order.version [.transitionState targetState.id]]⟩ := by
  rw [transitionOrderState, fetchOrder_found env orderId order ho, Res.bind_mk_ok]
  simp only [apiQueryStates, Res.bind_mk_ok, hs]
  simp [apiUpdateOrder, ho, wrapErr]

theorem transitionOrderState_noState (env : Env) (orderId stateKey : String) (order : Order)
    (ho : env.orders.find? (fun o => o.id == orderId) = some order)
    (hs : env.states.filter (fun st => st.key == stateKey) = []) :
    transitionOrderState env orderId stateKey =
      ⟨.error ⟨400, "Failed to transition order state: " ++
         ("State with key \"" ++ stateKey ++ "\" not found")⟩,
       [.fetchOrder orderId, .queryStates stateKey]⟩ := by
  rw [transitionOrderState, fetchOrder_found env orderId order ho, Res.bind_mk_ok]
  simp only [apiQueryStates, Res.bind_mk_ok, hs]
  simp [wrapErr]

theorem transitionOrderState_trace_shapes (env : Env) (orderId stateKey : String) :
    (transitionOrderState env orderId stateKey).trace = [.fetchOrder orderId] ∨
    (transitionOrderState env orderId stateKey).trace =
      [.fetchOrder orderId, .queryStates stateKey] ∨
    (∃ v a, (transitionOrderState env orderId stateKey).trace =
      [.fetchOrder orderId, .queryStates stateKey, .updateOrder orderId v a]) := by
  cases ho : env.orders.find? (fun o => o.id == orderId) with
  | none =>
    left
    rw [transitionOrderState, wrapErr_trace]
    have hfo : fetchOrder env orderId =
        ⟨.error ⟨400, "Failed to fetch order: " ++ ("order " ++ orderId ++ " not found")⟩,
         [.fetchOrder orderId]⟩ := by
      simp [fetchOrder, apiGetOrder, ho, wrapErr]
    rw [hfo, Res.bind_mk_err]
  | some order =>
    cases hs : env.states.filter (fun st => st.key == stateKey) with
    | nil =>
      right; left
      rw [transitionOrderState_noState env orderId stateKey order ho hs]
    | cons targetState rest =>
      right; right
      exact ⟨order.version, [.transitionState targetState.id],
        by rw [transitionOrderState_found env orderId stateKey order targetState rest ho hs]⟩

/-- C3: with the order present in the remote store, `transitionOrderState`
issues the order re-fetch first (the observed version is, by construction,
the version the store holds at this call, never one from earlier in the
handler run); when zero states match the key exactly it fails with a
status-400 BadRequest and issues no update; when at least one state matches
it issues exactly one update, carrying the freshly fetched version and a
single `transitionState` action targeting the first matched state. -/
theorem c3_transitionOrderState_freshVersion (env : Env) (orderId stateKey : String)
    (order : Order) (ho : env.orders.find? (fun o => o.id == orderId) = some order) :
    (∃ rest, (transitionOrderState env orderId stateKey).trace =
      ApiCall.fetchOrder orderId :: rest) ∧
    (env.states.filter (fun st => st.key == stateKey) = [] →
      transitionOrderState env orderId stateKey =
        ⟨.error ⟨400, "Failed to transition order state: " ++
           ("State with key \"" ++ stateKey ++ "\" not found")⟩,
         [.fetchOrder orderId, .queryStates stateKey]⟩) ∧
    (∀ targetState rest,
      env.states.filter (fun st => st.key == stateKey) = targetState :: rest →
      transitionOrderState env orderId stateKey =
        ⟨.ok order,
         [.fetchOrder orderId, .queryStates stateKey,
          .updateOrder orderId order.version [.transitionState targetState.id]]⟩) := by
  refine ⟨?_, fun hs => transitionOrderState_noState env orderId stateKey order ho hs,
    fun targetState rest hs =>
      transitionOrderState_found env orderId stateKey order targetState rest ho hs⟩
  rcases transitionOrderState_trace_shapes env orderId stateKey with h | h | ⟨v, a, h⟩
  · exact ⟨[], by rw [h]⟩
  · exact ⟨[.queryStates stateKey], by rw [h]⟩
  · exact ⟨[.queryStates stateKey, .updateOrder orderId v a], by rw [h]⟩

/-- Witness for C3: a store holding order `o1` at version 5; the key
`needs` resolves to state `s1`, the key `missing` resolves to no state. -/
theorem c3_transitionOrderState_freshVersion_witness :
    transitionOrderState ⟨[], [], [], [⟨"o1", 5, none⟩], [⟨"s1", "needs"⟩], []⟩ "o1" "needs" =
      ⟨.ok ⟨"o1", 5, none⟩,
       [.fetchOrder "o1", .queryStates "needs",
        .updateOrder "o1" 5 [.transitionState "s1"]]⟩ ∧
    transitionOrderState ⟨[], [], [], [⟨"o1", 5, none⟩], [⟨"s1", "needs"⟩], []⟩ "o1" "missing" =
      ⟨.error ⟨400, "Failed to transition order state: " ++
         ("State with key \"" ++ "missing" ++ "\" not found")⟩,
       [.fetchOrder "o1", .queryStates "missing"]⟩ :=
  ⟨(c3_transitionOrderState_freshVersion ⟨[], [], [], [⟨"o1", 5, none⟩], [⟨"s1", "needs"⟩], []⟩
      "o1" "needs" ⟨"o1", 5, none⟩ (by decide)).2.2 ⟨"s1", "needs"⟩ [] (by decide),
   (c3_transitionOrderState_freshVersion ⟨[], [], [], [⟨"o1", 5, none⟩], [⟨"s1", "needs"⟩], []⟩
      "o1" "missing" ⟨"o1", 5, none⟩ (by decide)).2.1 (by decide)⟩

/- ------------------------------------------------------------------ -/
/- Created-handler lemmas (C2, C7)                                    -/
/- ------------------------------------------------------------------ -/

theorem Res.eq_of (x : Res α) (r : Except CustomError α) (t : List ApiCall)
    (h1 : x.result = r) (h2 : x.trace = t) : x = ⟨r, t⟩ := by
  cases x
  cases h1
  cases h2
  rfl

theorem Res.bind_pure_trace (x : Res α) :
    (Res.bind x (fun _ => Res.pure ())).trace = x.trace := by
  rcases x with ⟨r, t⟩
  cases r <;> simp [Res.bind, Res.pure]

theorem sendBulkEmails_ok (env : Env) (recipients : List Recipient) (subject : String)
    (getTextContent : String → String) (getHtmlContent : Option (String → String))
    (h : ∀ r ∈ recipients, env.failingEmails.contains r.email = false) :
    sendBulkEmails env recipients subject getTextContent getHtmlContent =
      ⟨.ok (), recipients.map (emailCallFor subject getTextContent getHtmlContent)⟩ := by
  refine Res.eq_of _ _ _ ?_
    (sendBulkEmails_trace env recipients subject getTextContent getHtmlContent)
  have hres := (promiseAll_sends_ok_iff env subject getTextContent getHtmlContent
    recipients).mpr h
  simp [sendBulkEmails, wrapErr, promiseAll, hres]

theorem sendApprovalNotifications_ok (env : Env) (customers : List Customer)
    (approvalFlowId : String)
    (h : ∀ r ∈ recipientsOf customers, env.failingEmails.contains r.email = false) :
    sendApprovalNotifications env customers approvalFlowId =
      ⟨.ok (), notifyTrace customers approvalFlowId⟩ := by
  rw [sendApprovalNotifications]
  cases hrec : recipientsOf customers with
  | nil => simp [wrapErr, Res.pure, notifyTrace, hrec]
  | cons r rest =>
    rw [hrec] at h
    have hb := sendBulkEmails_ok env (r :: rest)
      (getApprovalNotificationSubject approvalFlowId)
      (fun name => getApprovalNotificationTemplate name approvalFlowId) none h
    simp [hb, wrapErr, notifyTrace, hrec]

theorem sendApprovalNotifications_trace (env : Env) (customers : List Customer)
    (approvalFlowId : String) :
    (sendApprovalNotifications env customers approvalFlowId).trace =
      notifyTrace customers approvalFlowId := by
  rw [sendApprovalNotifications, wrapErr_trace]
  cases hrec : recipientsOf customers with
  | nil => simp [Res.pure, notifyTrace, hrec]
  | cons r rest =>
    simp [sendBulkEmails_trace, notifyTrace, hrec]

theorem collectRefsLoop_ok (env : Env) (businessUnitKey : String)
    (businessUnit : BusinessUnit)
    (hbu : env.businessUnits.find? (fun b => b.key == businessUnitKey) = some businessUnit) :
    ∀ keys : List String,
      (∀ k ∈ keys, (env.associateRoles.find? (fun r => r.key == k)).isSome = true) →
      collectRefsLoop env businessUnitKey keys =
        ⟨.ok (collectedRefs businessUnit keys), loopTrace businessUnitKey keys⟩ := by
  intro keys
  induction keys with
  | nil => intro _; simp [collectRefsLoop, Res.pure, collectedRefs, loopTrace]
  | cons k rest ih =>
    intro hall
    have hk := hall k (List.mem_cons_self k rest)
    rcases Option.isSome_iff_exists.mp hk with ⟨role, hrole⟩
    have hrest : ∀ k2 ∈ rest,
        (env.associateRoles.find? (fun r => r.key == k2)).isSome = true :=
      fun k2 h2 => hall k2 (List.mem_cons_of_mem k h2)
    have h1 : apiFetchAssociateRole env k = ⟨.ok role, [.fetchAssociateRole k]⟩ := by
      simp [apiFetchAssociateRole, hrole]
    have h2 : apiFetchBusinessUnit env businessUnitKey =
        ⟨.ok businessUnit, [.fetchBusinessUnit businessUnitKey]⟩ := by
      simp [apiFetchBusinessUnit, hbu]
    simp only [collectRefsLoop, h1, h2, ih hrest, Res.bind_mk_ok, Res.pure]
    simp [collectedRefs, loopTrace]

theorem fetchCustomers_ok (env : Env) (businessUnitKey : String)
    (businessUnit : BusinessUnit) (keys : List String)
    (hbu : env.businessUnits.find? (fun b => b.key == businessUnitKey) = some businessUnit)
    (hroles : ∀ k ∈ keys, (env.associateRoles.find? (fun r => r.key == k)).isSome = true) :
    fetchCustomersByAssociateRoleKeysInBusinessUnit env keys businessUnitKey =
      ⟨.ok (fetchedCustomers env businessUnit keys),
       fetchTrace businessUnitKey businessUnit keys⟩ := by
  rw [fetchCustomersByAssociateRoleKeysInBusinessUnit,
    collectRefsLoop_ok env businessUnitKey businessUnit hbu keys hroles, Res.bind_mk_ok]
  cases hrefs : (collectedRefs businessUnit keys).isEmpty with
  | true => simp [hrefs, Res.pure, wrapErr, fetchedCustomers, fetchTrace]
  | false => simp [hrefs, apiQueryCustomers, wrapErr, fetchedCustomers, fetchTrace]

theorem handleApprovalFlowCreated_full (env : Env) (config : Config)
    (approvalFlow : ApprovalFlow) (businessUnit : BusinessUnit) (orderId : String)
    (order : Order) (targetState : State) (rest : List State)
    (hne : flowPending approvalFlow ≠ [])
    (hoid : approvalFlow.orderId = some orderId)
    (hbu : env.businessUnits.find? (fun b => b.key == approvalFlow.businessUnitKey) =
      some businessUnit)
    (hroles : ∀ k ∈ pendingKeys approvalFlow,
      (env.associateRoles.find? (fun r => r.key == k)).isSome = true)
    (hmails : ∀ r ∈ recipientsOf
        (fetchedCustomers env businessUnit (pendingKeys approvalFlow)),
      env.failingEmails.contains r.email = false)
    (ho : env.orders.find? (fun o => o.id == orderId) = some order)
    (hs : env.states.filter (fun st => st.key == config.orderNeedApprovalStateKey) =
      targetState :: rest) :
    handleApprovalFlowCreated env config approvalFlow =
      ⟨.ok (),
       fetchTrace approvalFlow.businessUnitKey businessUnit (pendingKeys approvalFlow) ++
         notifyTrace (fetchedCustomers env businessUnit (pendingKeys approvalFlow))
           approvalFlow.id ++
         [.fetchOrder orderId, .queryStates config.orderNeedApprovalStateKey,
          .updateOrder orderId order.version [.transitionState targetState.id]]⟩ := by
  have hlen : ¬ (flowPending approvalFlow).length = 0 := by
    simpa [List.length_eq_zero] using hne
  simp only [handleApprovalFlowCreated]
  rw [if_neg hlen]
  rw [fetchCustomers_ok env approvalFlow.businessUnitKey businessUnit
    (pendingKeys approvalFlow) hbu hroles, Res.bind_mk_ok]
  rw [sendApprovalNotifications_ok env _ _ hmails, Res.bind_mk_ok]
  rw [hoid]
  simp [transitionOrderState_found env orderId config.orderNeedApprovalStateKey order
    targetState rest ho hs, Res.bind, Res.pure, List.append_assoc]

theorem handleApprovalFlowCreated_empty (env : Env) (config : Config)
    (approvalFlow : ApprovalFlow) (h : flowPending approvalFlow = []) :
    handleApprovalFlowCreated env config approvalFlow = ⟨.ok (), []⟩ := by
  simp [handleApprovalFlowCreated, h, Res.pure]

theorem loopTrace_countP_zero (b : String) (keys : List String) (p : ApiCall → Bool)
    (h1 : ∀ k, p (.fetchAssociateRole k) = false)
    (h2 : p (.fetchBusinessUnit b) = false) :
    (loopTrace b keys).countP p = 0 := by
  refine List.countP_eq_zero.mpr ?_
  intro x hx
  rcases List.mem_flatMap.mp hx with ⟨k, _, hmem⟩
  rcases List.mem_cons.mp hmem with h | h
  · rw [h]; simp [h1 k]
  · rcases List.mem_singleton.mp h with h
    rw [h]; simp [h2]

theorem fetchTrace_countP_zero (b : String) (businessUnit : BusinessUnit)
    (keys : List String) (p : ApiCall → Bool)
    (h1 : ∀ k, p (.fetchAssociateRole k) = false)
    (h2 : p (.fetchBusinessUnit b) = false)
    (h3 : ∀ ids, p (.queryCustomers ids) = false) :
    (fetchTrace b businessUnit keys).countP p = 0 := by
  rw [fetchTrace, List.countP_append, loopTrace_countP_zero b keys p h1 h2]
  cases hrefs : (collectedRefs businessUnit keys).isEmpty <;> simp [hrefs, h3]

theorem notifyTrace_countP_zero (customers : List Customer) (approvalFlowId : String)
    (p : ApiCall → Bool) (h : ∀ a b c d, p (.sendEmail a b c d) = false) :
    (notifyTrace customers approvalFlowId).countP p = 0 := by
  refine List.countP_eq_zero.mpr ?_
  intro x hx
  rcases List.mem_map.mp hx with ⟨r, _, hr⟩
  rw [← hr]
  simp [emailCallFor, h]

theorem notifyTrace_countP_email (customers : List Customer) (approvalFlowId : String) :
    (notifyTrace customers approvalFlowId).countP isEmailCall =
      (customers.filter (fun c => c.email != "")).length := by
  rw [notifyTrace, List.countP_map]
  have h := List.countP_eq_length.mpr
    (fun (r : Recipient) (_ : r ∈ recipientsOf customers) =>
      (rfl : (isEmailCall ∘ emailCallFor (getApprovalNotificationSubject approvalFlowId)
        (fun name => getApprovalNotificationTemplate name approvalFlowId) none) r = true))
  rw [h]
  simp [recipientsOf]

theorem loopTrace_countP_roleFetch (b k : String) :
    ∀ keys : List String, (loopTrace b keys).countP (isRoleFetchFor k) = keys.count k := by
  intro keys
  induction keys with
  | nil => rfl
  | cons k2 rest ih =>
    have h1 : loopTrace b (k2 :: rest) =
        [.fetchAssociateRole k2, .fetchBusinessUnit b] ++ loopTrace b rest := by
      simp [loopTrace]
    rw [h1, List.countP_append, ih, List.count_cons]
    have h2 : ([.fetchAssociateRole k2, .fetchBusinessUnit b] : List ApiCall).countP
        (isRoleFetchFor k) = if k2 == k then 1 else 0 := by
      cases hk : k2 == k <;> simp [List.countP_cons, isRoleFetchFor, hk]
    rw [h2]
    cases hk : k2 == k <;> simp [hk, Nat.add_comm]

/-- C2: with an empty current-tier pending-approvers list the created-handler
issues no remote call at all (no customer lookup, no email, no order
transition); with at least one pending approver, an order id, and a
resolvable environment it issues exactly one order update (the one produced
by the needs-approval transition, carrying the fresh order version and
targeting the first state matching the configured key) and exactly one email
send per fetched customer with a non-empty email address. -/
theorem c2_handleApprovalFlowCreated_contract (env : Env) (config : Config)
    (approvalFlow : ApprovalFlow) :
    (flowPending approvalFlow = [] →
      handleApprovalFlowCreated env config approvalFlow = ⟨.ok (), []⟩) ∧
    (∀ businessUnit orderId order targetState rest,
      flowPending approvalFlow ≠ [] →
      approvalFlow.orderId = some orderId →
      env.businessUnits.find? (fun b => b.key == approvalFlow.businessUnitKey) =
        some businessUnit →
      (∀ k ∈ pendingKeys approvalFlow,
        (env.associateRoles.find? (fun r => r.key == k)).isSome = true) →
      (∀ r ∈ recipientsOf
          (fetchedCustomers env businessUnit (pendingKeys approvalFlow)),
        env.failingEmails.contains r.email = false) →
      env.orders.find? (fun o => o.id == orderId) = some order →
      env.states.filter (fun st => st.key == config.orderNeedApprovalStateKey) =
        targetState :: rest →
      ((handleApprovalFlowCreated env config approvalFlow).trace.countP isUpdateCall = 1 ∧
       ApiCall.updateOrder orderId order.version [.transitionState targetState.id] ∈
         (handleApprovalFlowCreated env config approvalFlow).trace ∧
       (handleApprovalFlowCreated env config approvalFlow).trace.countP isEmailCall =
         ((fetchedCustomers env businessUnit (pendingKeys approvalFlow)).filter
           (fun c => c.email != "")).length)) := by
  refine ⟨handleApprovalFlowCreated_empty env config approvalFlow, ?_⟩
  intro businessUnit orderId order targetState rest hne hoid hbu hroles hmails ho hs
  rw [handleApprovalFlowCreated_full env config approvalFlow businessUnit orderId order
    targetState rest hne hoid hbu hroles hmails ho hs]
  refine ⟨?_, ?_, ?_⟩
  · simp only [List.countP_append]
    rw [fetchTrace_countP_zero _ _ _ _ (fun _ => rfl) rfl (fun _ => rfl)]
    rw [notifyTrace_countP_zero _ _ _ (fun _ _ _ _ => rfl)]
    simp [List.countP_cons, isUpdateCall]
  · simp
  · simp only [List.countP_append]
    rw [fetchTrace_countP_zero _ _ _ _ (fun _ => rfl) rfl (fun _ => rfl)]
    rw [notifyTrace_countP_email]
    simp [List.countP_cons, isEmailCall]

/-- Witness for C2: an empty-approvers flow is a complete no-op, and a flow
with one approver role and an order resolves one customer, sends one email,
and issues one needs-approval update at the fresh version 3. -/
theorem c2_handleApprovalFlowCreated_contract_witness :
    handleApprovalFlowCreated
        ⟨[⟨"r"⟩], [⟨"bu", [⟨"c1", ["r"]⟩]⟩], [⟨"c1", "a@x", "Al", ""⟩],
         [⟨"o1", 3, some "bu"⟩], [⟨"s1", "needs"⟩], []⟩
        ⟨"needs", "appr", "rej", "from@x"⟩ ⟨"f0", "bu", none, some []⟩ = ⟨.ok (), []⟩ ∧
    ((handleApprovalFlowCreated
        ⟨[⟨"r"⟩], [⟨"bu", [⟨"c1", ["r"]⟩]⟩], [⟨"c1", "a@x", "Al", ""⟩],
         [⟨"o1", 3, some "bu"⟩], [⟨"s1", "needs"⟩], []⟩
        ⟨"needs", "appr", "rej", "from@x"⟩
        ⟨"f1", "bu", some "o1", some [⟨"r"⟩]⟩).trace.countP isUpdateCall = 1 ∧
     ApiCall.updateOrder "o1" 3 [.transitionState "s1"] ∈
       (handleApprovalFlowCreated
        ⟨[⟨"r"⟩], [⟨"bu", [⟨"c1", ["r"]⟩]⟩], [⟨"c1", "a@x", "Al", ""⟩],
         [⟨"o1", 3, some "bu"⟩], [⟨"s1", "needs"⟩], []⟩
        ⟨"needs", "appr", "rej", "from@x"⟩
        ⟨"f1", "bu", some "o1", some [⟨"r"⟩]⟩).trace ∧
     (handleApprovalFlowCreated
        ⟨[⟨"r"⟩], [⟨"bu", [⟨"c1", ["r"]⟩]⟩], [⟨"c1", "a@x", "Al", ""⟩],
         [⟨"o1", 3, some "bu"⟩], [⟨"s1", "needs"⟩], []⟩
        ⟨"needs", "appr", "rej", "from@x"⟩
        ⟨"f1", "bu", some "o1", some [⟨"r"⟩]⟩).trace.countP isEmailCall =
       ((fetchedCustomers
          ⟨[⟨"r"⟩], [⟨"bu", [⟨"c1", ["r"]⟩]⟩], [⟨"c1", "a@x", "Al", ""⟩],
           [⟨"o1", 3, some "bu"⟩], [⟨"s1", "needs"⟩], []⟩
          ⟨"bu", [⟨"c1", ["r"]⟩]⟩
          (pendingKeys ⟨"f1", "bu", some "o1", some [⟨"r"⟩]⟩)).filter
         (fun c => c.email != "")).length) :=
  ⟨(c2_handleApprovalFlowCreated_contract
      ⟨[⟨"r"⟩], [⟨"bu", [⟨"c1", ["r"]⟩]⟩], [⟨"c1", "a@x", "Al", ""⟩],
       [⟨"o1", 3, some "bu"⟩], [⟨"s1", "needs"⟩], []⟩
      ⟨"needs", "appr", "rej", "from@x"⟩ ⟨"f0", "bu", none, some []⟩).1 rfl,
   (c2_handleApprovalFlowCreated_contract
      ⟨[⟨"r"⟩], [⟨"bu", [⟨"c1", ["r"]⟩]⟩], [⟨"c1", "a@x", "Al", ""⟩],
       [⟨"o1", 3, some "bu"⟩], [⟨"s1", "needs"⟩], []⟩
      ⟨"needs", "appr", "rej", "from@x"⟩ ⟨"f1", "bu", some "o1", some [⟨"r"⟩]⟩).2
     ⟨"bu", [⟨"c1", ["r"]⟩]⟩ "o1" ⟨"o1", 3, some "bu"⟩ ⟨"s1", "needs"⟩ []
     (by decide) rfl (by decide) (by decide) (by decide) (by decide) (by decide)⟩

theorem handle_trace_loop_decomp (env : Env) (config : Config)
    (approvalFlow : ApprovalFlow) (businessUnit : BusinessUnit)
    (hbu : env.businessUnits.find? (fun b => b.key == approvalFlow.businessUnitKey) =
      some businessUnit)
    (hroles : ∀ k ∈ pendingKeys approvalFlow,
      (env.associateRoles.find? (fun r => r.key == k)).isSome = true) :
    ∃ tail, (handleApprovalFlowCreated env config approvalFlow).trace =
      loopTrace approvalFlow.businessUnitKey (pendingKeys approvalFlow) ++ tail ∧
      ∀ k, tail.countP (isRoleFetchFor k) = 0 := by
  by_cases hne : flowPending approvalFlow = []
  · refine ⟨[], ?_, fun k => rfl⟩
    rw [handleApprovalFlowCreated_empty env config approvalFlow hne]
    have hpk : pendingKeys approvalFlow = [] := by simp [pendingKeys, hne]
    simp [hpk, loopTrace]
  · have hlen : ¬ (flowPending approvalFlow).length = 0 := by
      simpa [List.length_eq_zero] using hne
    have hF := fetchCustomers_ok env approvalFlow.businessUnitKey businessUnit
      (pendingKeys approvalFlow) hbu hroles
    have htr : (handleApprovalFlowCreated env config approvalFlow).trace =
        fetchTrace approvalFlow.businessUnitKey businessUnit (pendingKeys approvalFlow) ++
        (Res.bind (sendApprovalNotifications env
            (fetchedCustomers env businessUnit (pendingKeys approvalFlow)) approvalFlow.id)
          (fun _ => match approvalFlow.orderId with
            | some orderId =>
              Res.bind (transitionOrderState env orderId config.orderNeedApprovalStateKey)
                (fun _ => Res.pure ())
            | none => Res.pure ())).trace := by
      simp only [handleApprovalFlowCreated]
      rw [if_neg hlen, hF, Res.bind_mk_ok]
    set N := sendApprovalNotifications env
      (fetchedCustomers env businessUnit (pendingKeys approvalFlow)) approvalFlow.id with hN
    set cont := fun (_ : Unit) => (match approvalFlow.orderId with
      | some orderId =>
        Res.bind (transitionOrderState env orderId config.orderNeedApprovalStateKey)
          (fun _ => Res.pure ())
      | none => Res.pure ()) with hcont
    have htail0 : ∀ k, ((Res.bind N cont).trace).countP (isRoleFetchFor k) = 0 := by
      intro k
      have hNt : N.trace = notifyTrace
          (fetchedCustomers env businessUnit (pendingKeys approvalFlow))
          approvalFlow.id := sendApprovalNotifications_trace env _ _
      cases hNres : N.result with
      | error e =>
        rw [Res.bind_trace_of_err N cont e hNres, hNt]
        exact notifyTrace_countP_zero _ _ _ (fun _ _ _ _ => rfl)
      | ok u =>
        rw [Res.bind_trace_of_ok N cont u hNres, List.countP_append, hNt]
        rw [notifyTrace_countP_zero _ _ _ (fun _ _ _ _ => rfl)]
        cases hoid : approvalFlow.orderId with
        | none => simp [hcont, hoid, Res.pure]
        | some orderId =>
          simp only [hcont, hoid]
          rw [Res.bind_pure_trace]
          rcases transitionOrderState_trace_shapes env orderId
            config.orderNeedApprovalStateKey with h | h | ⟨v, a, h⟩ <;> rw [h] <;> rfl
    refine ⟨((if (collectedRefs businessUnit (pendingKeys approvalFlow)).isEmpty then []
        else [ApiCall.queryCustomers
          (collectedRefs businessUnit (pendingKeys approvalFlow))]) ++
        (Res.bind N cont).trace), ?_, ?_⟩
    · rw [htr, fetchTrace, List.append_assoc]
    · intro k
      rw [List.countP_append, htail0 k]
      cases hrefs : (collectedRefs businessUnit (pendingKeys approvalFlow)).isEmpty <;>
        simp [hrefs, isRoleFetchFor]

/-- C7 counterexample: a flow whose pending-approvers list repeats the role
key `r` makes the handler fetch that associate role twice and collect the
duplicate customer reference twice in the batch query — the distinct key is
not resolved exactly once. -/
theorem c7_duplicateRoleKey_counterexample :
    (handleApprovalFlowCreated
        ⟨[⟨"r"⟩], [⟨"bu", [⟨"c1", ["r"]⟩]⟩], [⟨"c1", "a@x", "Al", ""⟩],
         [⟨"o1", 3, some "bu"⟩], [⟨"s1", "needs"⟩], []⟩
        ⟨"needs", "appr", "rej", "from@x"⟩
        ⟨"f1", "bu", some "o1", some [⟨"r"⟩, ⟨"r"⟩]⟩).trace.countP
      (isRoleFetchFor "r") = 2 ∧
    ApiCall.queryCustomers ["c1", "c1"] ∈
      (handleApprovalFlowCreated
        ⟨[⟨"r"⟩], [⟨"bu", [⟨"c1", ["r"]⟩]⟩], [⟨"c1", "a@x", "Al", ""⟩],
         [⟨"o1", 3, some "bu"⟩], [⟨"s1", "needs"⟩], []⟩
        ⟨"needs", "appr", "rej", "from@x"⟩
        ⟨"f1", "bu", some "o1", some [⟨"r"⟩, ⟨"r"⟩]⟩).trace := by
  refine ⟨by decide, by decide⟩

/-- C7 (amended): the created-handler collects the role keys per occurrence,
without deduplication: for every key, the number of associate-role fetches
equals the number of occurrences of that key in the pending-approvers list,
so a repeated key is resolved once per occurrence (and contributes its
customer references once per occurrence to the batch query, whose result
still lists each stored customer once). -/
theorem c7_roleKeys_per_occurrence (env : Env) (config : Config)
    (approvalFlow : ApprovalFlow) (businessUnit : BusinessUnit)
    (hbu : env.businessUnits.find? (fun b => b.key == approvalFlow.businessUnitKey) =
      some businessUnit)
    (hroles : ∀ k ∈ pendingKeys approvalFlow,
      (env.associateRoles.find? (fun r => r.key == k)).isSome = true) :
    ∀ k, (handleApprovalFlowCreated env config approvalFlow).trace.countP
        (isRoleFetchFor k) = (pendingKeys approvalFlow).count k := by
  obtain ⟨tail, htr, htail⟩ :=
    handle_trace_loop_decomp env config approvalFlow businessUnit hbu hroles
  intro k
  rw [htr, List.countP_append, htail k, loopTrace_countP_roleFetch, Nat.add_zero]

/-- Witness for C7 (amended) at the duplicate-key flow: two occurrences of
`r`, two associate-role fetches. -/
theorem c7_roleKeys_per_occurrence_witness :
    (handleApprovalFlowCreated
        ⟨[⟨"r"⟩], [⟨"bu", [⟨"c1", ["r"]⟩]⟩], [⟨"c1", "a@x", "Al", ""⟩],
         [⟨"o1", 3, some "bu"⟩], [⟨"s1", "needs"⟩], []⟩
        ⟨"needs", "appr", "rej", "from@x"⟩
        ⟨"f1", "bu", some "o1", some [⟨"r"⟩, ⟨"r"⟩]⟩).trace.countP
      (isRoleFetchFor "r") =
      (pendingKeys ⟨"f1", "bu", some "o1", some [⟨"r"⟩, ⟨"r"⟩]⟩).count "r" :=
  c7_roleKeys_per_occurrence
    ⟨[⟨"r"⟩], [⟨"bu", [⟨"c1", ["r"]⟩]⟩], [⟨"c1", "a@x", "Al", ""⟩],
     [⟨"o1", 3, some "bu"⟩], [⟨"s1", "needs"⟩], []⟩
    ⟨"needs", "appr", "rej", "from@x"⟩
    ⟨"f1", "bu", some "o1", some [⟨"r"⟩, ⟨"r"⟩]⟩
    ⟨"bu", [⟨"c1", ["r"]⟩]⟩ (by decide) (by decide) "r"

end AFC
